import Mathlib

/-!
Verification of the runtime type model and value-conversion engine of the
repository (`src/datatypes.ts`): the null-aware comparison dispatcher of
`TypeBase`, the kind-specific comparison and conversion rules of the type
variants (timestamp, text, numeric family, array), and the memoized type
registry (`Types`, `makeText`, `makeArray`, `makeType`).

Modelling conventions:
  * a raw value that may be the SQL null is an `Option V` (`none` = JS `null`);
  * JS numbers appearing as data are rationals (`ℚ`); moment timestamps are
    integers (milliseconds), since `moment.diff` returns a whole number of
    milliseconds;
  * a thrown `QueryError` is an `Except.error` carrying the error kind;
  * reference identity of registry-issued type descriptors is modelled by the
    structural equality of the `Ty` inductive, which is sound because the
    registry memoizes every parameterized descriptor (see `makeText`,
    `makeArray` and the memoization theorem for claim C8).
-/

/-- The closed enumeration of storable data kinds (`DataType` in the source's
`interfaces`; the members used by `datatypes.ts`). -/
inductive DataType where
  | null
  | bool
  | int
  | long
  | float
  | decimal
  | text
  | timestamp
  | array
  deriving DecidableEq, Repr

/-- `integers = new Set([DataType.int, DataType.long])` (`datatypes.ts`):
membership test `integers.has k`. -/
def isIntegerKind : DataType → Bool
  | .int => true
  | .long => true
  | _ => false

/-- `numbers = new Set([DataType.int, DataType.long, DataType.decimal,
DataType.float])` (`datatypes.ts`): membership test `numbers.has k`. -/
def isNumericKind : DataType → Bool
  | .int => true
  | .long => true
  | .decimal => true
  | .float => true
  | _ => false

/-- The kind-specific comparison hooks a type variant supplies (the
`doEquals` / `doGt` / `doLt` methods overridable on `TypeBase`). -/
structure Variant (V : Type) where
  doEquals : V → V → Bool
  doGt : V → V → Bool
  doLt : V → V → Bool

/-- `TypeBase.equals`: `if (a === null || b === null) return false;
return this.doEquals(a, b);`. -/
def Variant.equals {V : Type} (t : Variant V) : Option V → Option V → Bool
  | some a, some b => t.doEquals a b
  | _, _ => false

/-- `TypeBase.gt`: `if (a === null || b === null) return false;
return this.doGt(a, b);`. -/
def Variant.gt {V : Type} (t : Variant V) : Option V → Option V → Bool
  | some a, some b => t.doGt a b
  | _, _ => false

/-- `TypeBase.lt`: `if (a === null || b === null) return false;
return this.doLt(a, b);`. -/
def Variant.lt {V : Type} (t : Variant V) : Option V → Option V → Bool
  | some a, some b => t.doLt a b
  | _, _ => false

/-- `moment(a).diff(moment(b))`: the signed difference in whole milliseconds,
viewed as a JS number (a rational). -/
def momentDiff (a b : Int) : ℚ := ((a - b : Int) : ℚ)

/-- The `TimestampType` variant: `doEquals` is `moment(a).diff(moment(b)) <
0.1` (note: the source applies no absolute value to the diff), `doGt` is
`diff > 0`, `doLt` is `diff < 0`. -/
def tsVariant : Variant Int where
  doEquals a b := decide (momentDiff a b < 1 / 10)
  doGt a b := decide (momentDiff a b > 0)
  doLt a b := decide (momentDiff a b < 0)

/-- The default `TypeBase` comparison hooks at integer raw values
(JS `===`, `>`, `<`), e.g. the element behavior of an `int` column inside an
array. -/
def intVariant : Variant Int where
  doEquals a b := a == b
  doGt a b := decide (b < a)
  doLt a b := decide (a < b)

/-- C1: the dispatcher-level `equals` / `gt` / `lt` of `TypeBase` return
`false` whenever either operand is the SQL null — in both argument orders and
in the null-null case — and delegate to the variant's `doEquals` / `doGt` /
`doLt` when neither operand is null.  This holds for every type variant
(every choice of comparison hooks). -/
theorem C1_dispatcher_null_comparisons {V : Type} (t : Variant V)
    (a b : Option V) (x y : V) :
    t.equals none b = false ∧ t.equals a none = false ∧
    t.gt none b = false ∧ t.gt a none = false ∧
    t.lt none b = false ∧ t.lt a none = false ∧
    t.equals (some x) (some y) = t.doEquals x y ∧
    t.gt (some x) (some y) = t.doGt x y ∧
    t.lt (some x) (some y) = t.doLt x y := by
  cases a <;> cases b <;>
    simp [Variant.equals, Variant.gt, Variant.lt]

/-- C2 (code bug): `TimestampType.doEquals` compares the *signed* moment diff
against the `0.1` epsilon, so through the dispatcher the timestamp `0` counts
as equal to the timestamp `1000` (one full second later: the signed diff is
`-1000 < 0.1`), while in the opposite argument order they are unequal — and
`gt` confirms `1000` is genuinely later.  The claimed symmetric tolerance
("differing by more than the epsilon do not compare equal, in either argument
order") fails at this input. -/
theorem C2_timestamp_equals_asymmetric :
    tsVariant.equals (some 0) (some 1000) = true ∧
    tsVariant.equals (some 1000) (some 0) = false ∧
    tsVariant.gt (some 1000) (some 0) = true := by
  refine ⟨?_, ?_, ?_⟩ <;>
    simp [Variant.equals, Variant.gt, tsVariant, momentDiff] <;> norm_num

/-- The error kinds thrown as `QueryError` by the conversion producers in
`datatypes.ts` (spec names: `ValueTooLong(bound)`,
`InvalidNumericLiteral(targetKind, original)`). -/
inductive ConvError where
  | valueTooLong (bound : Nat)
  | invalidNumericLiteral (target : DataType) (original : String)
  deriving DecidableEq, Repr

/-- JS `ToNumber` on a nullable length (`number | null`): `null` coerces
to `0`. -/
def jsNum : Option Nat → Nat
  | none => 0
  | some n => n

/-- JS `<` on two nullable lengths, as in `fromStr.len < toStr.len`. -/
def jsLtNullable (a b : Option Nat) : Bool := decide (jsNum a < jsNum b)

/-- The `DataType.text` branch of `TextType.doConvert`, as a deferred
producer: building the conversion always succeeds, and applying the producer
to the realized string is resolution.  The source binds BOTH `fromStr` and
`toStr` to `to` (`const fromStr = to as TextType; const toStr = to as
TextType;`), so `sourceLen` (the `len` of `this`, the source text type) is
never consulted and the guard `fromStr.len < toStr.len` compares the target
bound with itself. -/
def textToText (sourceLen targetLen : Option Nat) : String → Except ConvError String :=
  if targetLen.isNone || jsLtNullable targetLen targetLen then
    fun s => Except.ok s
  else
    fun s =>
      if s.length > jsNum targetLen then
        Except.error (ConvError.valueTooLong (jsNum targetLen))
      else Except.ok s

/-- C3 (code bug): text-to-text conversion.  The two spec examples hold
(unbounded `"hello"` to bound `3` fails with `ValueTooLong 3` at resolution,
to bound `10` succeeds unchanged, and any string to the unbounded target is a
pure retag), but because the source binds `fromStr` to the *target* type, a
bounded-to-looser-bound conversion still validates against the target bound:
converting the 9-character string `"abcdefghi"` from `text(5)` to the
not-tighter `text(7)` fails with `ValueTooLong 7`, where the claim requires a
retag that succeeds. -/
theorem C3_text_to_text_validation :
    textToText none (some 3) "hello" = Except.error (ConvError.valueTooLong 3) ∧
    textToText none (some 10) "hello" = Except.ok "hello" ∧
    textToText (some 5) none "abcdefghi" = Except.ok "abcdefghi" ∧
    textToText (some 5) (some 7) "abcdefghi" =
      Except.error (ConvError.valueTooLong 7) := by
  refine ⟨rfl, rfl, rfl, rfl⟩

/-- `ArrayType.doEquals`: `if (a.length !== b.length) return false;` then a
loop over all indices requiring `this.of.equals(a[i], b[i])` (the element
type's null-aware dispatcher equality). -/
def arrayDoEquals {V : Type} (of : Variant V) (a b : List (Option V)) : Bool :=
  (a.length == b.length) && (a.zip b).all fun p => of.equals p.1 p.2

/-- `ArrayType.doGt`: a loop over the first `min(a.length, b.length)` indices
returning `true` at the first index where `this.of.gt(a[i], b[i])` holds, and
`a.length > b.length` after the loop. -/
def arrayDoGt {V : Type} (of : Variant V) (a b : List (Option V)) : Bool :=
  ((a.zip b).any fun p => of.gt p.1 p.2) || decide (b.length < a.length)

/-- `ArrayType.doLt`: the mirror loop using `this.of.lt`, then
`a.length < b.length`. -/
def arrayDoLt {V : Type} (of : Variant V) (a b : List (Option V)) : Bool :=
  ((a.zip b).any fun p => of.lt p.1 p.2) || decide (a.length < b.length)

/-- Modelled from the claim's words (claim C4), for comparison with
`arrayDoGt`: "a is greater than b if and only if the first index at which the
elements differ has the left element greater, or, when one is a prefix of the
other, the left is longer" — standard lexicographic order on arrays, using
the element type's equality to find the first differing index and its
greater-than there. -/
def claimedArrayGt {V : Type} (of : Variant V) : List (Option V) → List (Option V) → Bool
  | _ :: _, [] => true
  | [], _ => false
  | x :: xs, y :: ys =>
    if of.equals x y then claimedArrayGt of xs ys else of.gt x y

/-- Any-index characterization of the comparison loops of `ArrayType.doGt`
and `ArrayType.doLt`. -/
theorem zip_any_iff {V : Type} (f : Option V → Option V → Bool)
    (a b : List (Option V)) :
    ((a.zip b).any fun p => f p.1 p.2) = true ↔
      ∃ i, i < min a.length b.length ∧ f (a.getD i none) (b.getD i none) = true := by
  induction a generalizing b with
  | nil => simp
  | cons x xs ih =>
    cases b with
    | nil => simp
    | cons y ys =>
      simp only [List.zip_cons_cons, List.any_cons, Bool.or_eq_true, ih]
      constructor
      · rintro (h | ⟨i, hi, h⟩)
        · exact ⟨0, by simp, by simpa using h⟩
        · exact ⟨i + 1, by simp [Nat.succ_lt_succ_iff]; omega, by simpa using h⟩
      · rintro ⟨i, hi, h⟩
        cases i with
        | zero => exact Or.inl (by simpa using h)
        | succ j =>
          exact Or.inr ⟨j, by simp at hi; omega, by simpa using h⟩

/-- All-indices characterization of the equality loop of
`ArrayType.doEquals`. -/
theorem zip_all_iff {V : Type} (f : Option V → Option V → Bool)
    (a b : List (Option V)) :
    ((a.zip b).all fun p => f p.1 p.2) = true ↔
      ∀ i, i < min a.length b.length → f (a.getD i none) (b.getD i none) = true := by
  induction a generalizing b with
  | nil => simp
  | cons x xs ih =>
    cases b with
    | nil => simp
    | cons y ys =>
      simp only [List.zip_cons_cons, List.all_cons, Bool.and_eq_true, ih]
      constructor
      · rintro ⟨h0, h⟩ i hi
        cases i with
        | zero => simpa using h0
        | succ j => simpa using h j (by simp at hi; omega)
      · intro h
        refine ⟨by simpa using h 0 (by simp), fun j hj => ?_⟩
        simpa using h (j + 1) (by simp [Nat.succ_lt_succ_iff]; omega)

/-- C4 counterexample: `ArrayType.doGt` returns `true` whenever *some* index
within the common length has the left element greater, not only when the
*first differing* index does.  With integer elements, `[1,3]` against `[2,1]`
has its first differing index at position `0`, where the left element is
smaller — the claimed lexicographic greater-than is `false` — yet the code's
`doGt` is `true` (index `1` has `3 > 1`); its `doLt` is simultaneously
`true`, which the claimed strict mirror order can never allow. -/
theorem C4_first_index_counterexample :
    arrayDoGt intVariant [some 1, some 3] [some 2, some 1] = true ∧
    arrayDoLt intVariant [some 1, some 3] [some 2, some 1] = true ∧
    claimedArrayGt intVariant [some 1, some 3] [some 2, some 1] = false := by
  refine ⟨?_, ?_, ?_⟩ <;> decide

/-- C4 amended: array equality holds iff the lengths agree and every pair of
corresponding elements is equal under the element type's (null-aware)
equality; array greater-than holds iff *some* index within the common length
has the left element greater under the element type's greater-than, or,
failing that, the left array is longer; less-than is the mirror with
per-element less-than (so it is not the first-differing-index lexicographic
order: `gt` and `lt` may both hold). -/
theorem C4_array_comparisons {V : Type} (of : Variant V)
    (a b : List (Option V)) :
    (arrayDoEquals of a b = true ↔
        a.length = b.length ∧
          ∀ i, i < min a.length b.length →
            of.equals (a.getD i none) (b.getD i none) = true) ∧
    (arrayDoGt of a b = true ↔
        (∃ i, i < min a.length b.length ∧
            of.gt (a.getD i none) (b.getD i none) = true) ∨
          b.length < a.length) ∧
    (arrayDoLt of a b = true ↔
        (∃ i, i < min a.length b.length ∧
            of.lt (a.getD i none) (b.getD i none) = true) ∨
          a.length < b.length) := by
  refine ⟨?_, ?_, ?_⟩
  · rw [arrayDoEquals, Bool.and_eq_true, beq_iff_eq, zip_all_iff]
  · rw [arrayDoGt, Bool.or_eq_true, decide_eq_true_iff, zip_any_iff]
  · rw [arrayDoLt, Bool.or_eq_true, decide_eq_true_iff, zip_any_iff]

/-- The structural identity of a registry-issued type descriptor (`_IType`
instance).  Because the registry memoizes bounded-text and array descriptors
and keeps one singleton per primitive kind (claim C8), JS reference equality
(`to === this`) coincides with equality of this inductive. -/
inductive Ty where
  | nullT
  | boolT
  | timestampT
  | num (kind : DataType)
  | text (len : Option Nat)
  | arr (of : Ty)
  deriving DecidableEq, Repr

/-- Size measure for the termination of `canConvert`. -/
def Ty.size : Ty → Nat
  | .arr of => of.size + 1
  | _ => 1

/-- `to instanceof ArrayType`. -/
def isArrTy : Ty → Bool
  | .arr _ => true
  | _ => false

/-- `to.primary` is a numeric-family kind. -/
def isNumericTy : Ty → Bool
  | .num _ => true
  | _ => false

/-- `to.primary === DataType.text`. -/
def isTextTy : Ty → Bool
  | .text _ => true
  | _ => false

/-- `to.primary === DataType.timestamp`. -/
def isTimestampTy : Ty → Bool
  | .timestampT => true
  | _ => false

/-- `TypeBase.canConvert` (with `NumberType`'s full override): identity
(`to === this`) is always convertible; otherwise the variant's hook decides:
`NullType` converts to anything; `BoolType` and `TimestampType` have no hook;
`NumberType.canConvert` accepts exactly the numeric-family kinds;
`TextType.doCanConvert` accepts timestamp, text and the numeric kinds;
`ArrayType.doCanConvert` is `to instanceof ArrayType && to.canConvert(this.of)`
— note: it recursively asks whether the *target array type* can convert to
this array's *element* type, not whether the element types are mutually
convertible. -/
def canConvert (t tgt : Ty) : Bool :=
  if t = tgt then true
  else
    match t with
    | .nullT => true
    | .boolT => false
    | .timestampT => false
    | .num _ => isNumericTy tgt
    | .text _ => isTimestampTy tgt || isTextTy tgt || isNumericTy tgt
    | .arr of => isArrTy tgt && canConvert tgt of
termination_by t.size + tgt.size
decreasing_by simp [Ty.size]; omega

/-- C5 (code bug): `int` and `float` are mutually convertible, so the claim
requires `array(int)` to be convertible to `array(float)` (and conversely);
but `ArrayType.doCanConvert` tests `to.canConvert(this.of)` — the target
*array* type against the source *element* type — which fails for every
non-array element, so both array conversions are rejected, contradicting the
per-element conversion its own `doConvert` performs. -/
theorem C5_array_canConvert_guard :
    canConvert (Ty.num .int) (Ty.num .float) = true ∧
    canConvert (Ty.num .float) (Ty.num .int) = true ∧
    canConvert (Ty.arr (Ty.num .int)) (Ty.arr (Ty.num .float)) = false ∧
    canConvert (Ty.arr (Ty.num .float)) (Ty.arr (Ty.num .int)) = false := by
  refine ⟨?_, ?_, ?_, ?_⟩ <;>
    simp [canConvert, isArrTy, isNumericTy, isTextTy, isTimestampTy]

/-- Consume a maximal run of decimal digits: accumulated value, number of
digits consumed, rest of the input. -/
def takeDigits : List Char → Nat → Nat → Nat × Nat × List Char
  | c :: cs, acc, n =>
    if c.isDigit then takeDigits cs (acc * 10 + (c.toNat - 48)) (n + 1)
    else (acc, n, c :: cs)
  | [], acc, n => (acc, n, [])

/-- Consume an optional leading sign. -/
def takeSign : List Char → Int × List Char
  | '-' :: cs => (-1, cs)
  | '+' :: cs => (1, cs)
  | cs => (1, cs)

/-- JS `Number.parseFloat`: skip leading whitespace, then read the longest
prefix that is a signed decimal literal (integer digits, optional fractional
part, optional exponent), ignoring any trailing garbage; `none` when no digit
is read (JS `NaN`).  The special literal `Infinity`, which JS parses and the
source then rejects through its `Number.isFinite` guard, is also `none` here:
both roads end in the same `invalid input syntax` error. -/
def jsParseFloat (s : String) : Option ℚ :=
  let cs0 := s.data.dropWhile fun c => c = ' ' || c = '\t' || c = '\n' || c = '\r'
  let p1 := takeSign cs0
  let p2 := takeDigits p1.2 0 0
  let p3 :=
    match p2.2.2 with
    | '.' :: rest => takeDigits rest 0 0
    | _ => (0, 0, p2.2.2)
  if p2.2.1 + p3.2.1 = 0 then none
  else
    let e : Int :=
      match p3.2.2 with
      | c :: rest =>
        if c = 'e' || c = 'E' then
          let q1 := takeSign rest
          let q2 := takeDigits q1.2 0 0
          if q2.2.1 = 0 then 0 else q1.1 * (q2.1 : Int)
        else 0
      | [] => 0
    let base : Int := p1.1 * ((p2.1 * 10 ^ p3.2.1 + p3.1 : Nat) : Int)
    if 0 ≤ e then some (mkRat (base * 10 ^ e.toNat) (10 ^ p3.2.1))
    else some (mkRat base (10 ^ p3.2.1 * 10 ^ (-e).toNat))

/-- The numeric branch of `TextType.doConvert`, as the deferred producer it
installs through `setValue`: a null (or absent) realized string passes
through as null; otherwise the string is parsed with `Number.parseFloat`,
failing with `invalid input syntax` when the result is not a finite number,
and again when the target is an integer kind (`integers.has(to.primary)`) and
the parsed value is not whole (`Math.floor(val) !== val`). -/
def textToNumber (target : DataType) (raw : Option String) : Except ConvError (Option ℚ) :=
  match raw with
  | none => Except.ok none
  | some str =>
    match jsParseFloat str with
    | none => Except.error (ConvError.invalidNumericLiteral target str)
    | some val =>
      if isIntegerKind target && !(decide ((⌊val⌋ : ℚ) = val)) then
        Except.error (ConvError.invalidNumericLiteral target str)
      else Except.ok (some val)

/-- C6: resolving a text-to-numeric conversion parses the realized string as
a floating-point literal; it fails with `InvalidNumericLiteral(target,
original)` exactly when the parse yields no number, or the target is an
integer kind and the parsed value is not whole — and otherwise yields the
parsed number.  Concretely, `"42"` to `int` yields `42`, `"42.5"` to `int`
fails, and `"abc"` fails for every numeric target. -/
theorem C6_text_to_numeric_errors (t : DataType) (ht : isNumericKind t = true)
    (s : String) :
    (textToNumber t (some s) = Except.error (ConvError.invalidNumericLiteral t s) ↔
        jsParseFloat s = none ∨
          ∃ q, jsParseFloat s = some q ∧ isIntegerKind t = true ∧ (⌊q⌋ : ℚ) ≠ q) ∧
    (∀ q, jsParseFloat s = some q →
        (isIntegerKind t = false ∨ (⌊q⌋ : ℚ) = q) →
          textToNumber t (some s) = Except.ok (some q)) ∧
    textToNumber DataType.int (some "42") = Except.ok (some 42) ∧
    textToNumber DataType.int (some "42.5") =
      Except.error (ConvError.invalidNumericLiteral DataType.int "42.5") ∧
    textToNumber t (some "abc") =
      Except.error (ConvError.invalidNumericLiteral t "abc") := by
  refine ⟨?_, ?_, ?_, ?_, ?_⟩
  · rcases h : jsParseFloat s with _ | q
    · simp [textToNumber, h]
    · rcases hi : isIntegerKind t with _ | _
      · simp [textToNumber, h, hi]
      · rcases hw : decide ((⌊q⌋ : ℚ) = q) with _ | _
        · simp only [decide_eq_false_iff_not] at hw
          simp [textToNumber, h, hi, hw]
        · simp only [decide_eq_true_eq] at hw
          simp [textToNumber, h, hi, hw]
  · intro q hq hw
    rcases hw with hw | hw <;> simp [textToNumber, hq, hw]
  · have h42 : jsParseFloat "42" = some 42 := by decide
    have hw : ((⌊(42 : ℚ)⌋ : ℚ) = (42 : ℚ)) := by norm_num
    simp [textToNumber, h42, hw]
  · have h425 : jsParseFloat "42.5" = some (mkRat 85 2) := by decide
    have hm : (mkRat 85 2 : ℚ) = 85 / 2 := by norm_num [mkRat]
    have hfl : ((⌊(85 / 2 : ℚ)⌋ : ℚ) ≠ (85 / 2 : ℚ)) := by norm_num
    simp [textToNumber, h425, hm, hfl, isIntegerKind]
  · have habc : jsParseFloat "abc" = none := by decide
    simp [textToNumber, habc]

/-- C6 witness: the integer kind is numeric, and the theorem instantiated at
target `int`, string `"42"` yields the parsed number. -/
theorem C6_witness :
    isNumericKind DataType.int = true ∧
    textToNumber DataType.int (some "42") = Except.ok (some 42) :=
  ⟨by decide, (C6_text_to_numeric_errors DataType.int (by decide) "42").2.2.1⟩

/-- C10: the numeric conversion producer of `TextType.doConvert` checks
`str === null || str === undefined` before parsing and returns null, for
every target kind: null data passes through the numeric cast silently
instead of raising `InvalidNumericLiteral`. -/
theorem C10_null_passes_numeric_cast (t : DataType) :
    textToNumber t none = Except.ok none := rfl

/-- JS `Math.round`: round to the nearest whole number, halves toward
positive infinity (`Math.round(2.5) = 3`), i.e. the floor of `x + 1/2`. -/
def jsRound (q : ℚ) : ℚ := ((⌊q + 1 / 2⌋ : ℤ) : ℚ)

/-- `NumberType.doConvert`, as the producer of the converted evaluator: when
the source kind is not an integer kind and the target kind is
(`!integers.has(value.type.primary) && integers.has(to.primary)`), the
realized value is passed through `Math.round` (a null realized value, not a
number, passes through untouched); every other numeric conversion reuses the
source's producer unchanged (`value.val`), only the type tag changes. -/
def numberConvert (fromKind toKind : DataType) (v : Option ℚ) : Option ℚ :=
  if !isIntegerKind fromKind && isIntegerKind toKind then
    match v with
    | some q => some (jsRound q)
    | none => none
  else v

/-- C7: within the numeric family, a conversion from a non-integer kind to an
integer kind rounds the realized value to the nearest whole number at
evaluation time (`2.5 -> 3`, `2.4 -> 2`, rounding, never truncation), and
every other conversion is a no-op value passthrough. -/
theorem C7_numeric_rounding (f t : DataType)
    (hf : isNumericKind f = true) (ht : isNumericKind t = true) :
    (isIntegerKind f = false → isIntegerKind t = true →
        ∀ q : ℚ, numberConvert f t (some q) = some (jsRound q)) ∧
    (isIntegerKind f = true ∨ isIntegerKind t = false →
        ∀ v : Option ℚ, numberConvert f t v = v) ∧
    numberConvert DataType.decimal DataType.int (some (5 / 2)) = some 3 ∧
    numberConvert DataType.decimal DataType.int (some (12 / 5)) = some 2 := by
  refine ⟨?_, ?_, ?_, ?_⟩
  · intro h1 h2 q
    simp [numberConvert, h1, h2]
  · intro h v
    rcases h with h | h <;> simp [numberConvert, h]
  · have hr : jsRound (5 / 2) = 3 := by
      have : (5 / 2 + 1 / 2 : ℚ) = 3 := by norm_num
      rw [jsRound, this]
      norm_num
    simp [numberConvert, isIntegerKind, hr]
  · have hr : jsRound (12 / 5) = 2 := by
      have h1 : (12 / 5 + 1 / 2 : ℚ) = 29 / 10 := by norm_num
      have h2 : (⌊(29 / 10 : ℚ)⌋ : ℤ) = 2 := by
        rw [Int.floor_eq_iff] <;> norm_num
      rw [jsRound, h1, h2]
      norm_num
    simp [numberConvert, isIntegerKind, hr]

/-- C7 witness: the decimal and integer kinds are numeric, and the converted
decimal value `2.5` rounds to `3`. -/
theorem C7_witness :
    isNumericKind DataType.decimal = true ∧ isNumericKind DataType.int = true ∧
    numberConvert DataType.decimal DataType.int (some (5 / 2)) = some 3 :=
  ⟨by decide, by decide,
    (C7_numeric_rounding DataType.decimal DataType.int (by decide) (by decide)).2.2.1⟩

/-- The module-level mutable state of the type registry: the `texts` map
(bounded-text instances keyed by `len`, with `null`/absent as `none`), the
`arrays` map (array instances keyed by the element instance's identity), and
a supply of fresh instance identities modelling JS object allocation. -/
structure Registry where
  texts : List (Option Nat × Nat)
  arrays : List (Nat × Nat)
  nextId : Nat

/-- `Map.get`: first entry with the given key, if any. -/
def mapGet {K : Type} [DecidableEq K] : List (K × Nat) → K → Option Nat
  | [], _ => none
  | (k, v) :: rest, key => if key = k then some v else mapGet rest key

/-- `makeText(len = null)`: `len = len ?? null` (the `Option` already covers
the absent/`undefined` case), then look the key up in the `texts` map,
allocating and memoizing a fresh `TextType` instance on a miss.  Returns the
instance's identity. -/
def makeText (r : Registry) (len : Option Nat) : Registry × Nat :=
  match mapGet r.texts len with
  | some id => (r, id)
  | none =>
    ({ r with texts := (len, r.nextId) :: r.texts, nextId := r.nextId + 1 },
      r.nextId)

/-- `makeArray(of)`: look the element instance up in the `arrays` map,
allocating and memoizing a fresh `ArrayType` instance on a miss. -/
def makeArray (r : Registry) (ofId : Nat) : Registry × Nat :=
  match mapGet r.arrays ofId with
  | some id => (r, id)
  | none =>
    ({ r with arrays := (ofId, r.nextId) :: r.arrays, nextId := r.nextId + 1 },
      r.nextId)

/-- An entry of the module-level `Types` object: every non-parameterized
primitive kind maps to a single descriptor instance built once at module
load, but the `text` key maps to the bounded-text factory *function*
`(len = null) => makeText(len)`. -/
inductive TypesEntry where
  | desc (t : Ty)
  | factory
  deriving DecidableEq, Repr

/-- The `Types` object of `datatypes.ts`: `bool`, `timestamp`, `null`,
`float`, `int` and `long` map to their singleton instances; `text` maps to
the factory function; `decimal` and `array` have no entry. -/
def TypesMap : DataType → Option TypesEntry
  | .bool => some (.desc .boolT)
  | .text => some .factory
  | .timestamp => some (.desc .timestampT)
  | .null => some (.desc .nullT)
  | .float => some (.desc (.num .float))
  | .int => some (.desc (.num .int))
  | .long => some (.desc (.num .long))
  | _ => none

/-- The argument of `makeType`: either a kind name (`DataType` string) or an
already-resolved descriptor. -/
inductive TypeRef where
  | name (d : DataType)
  | descr (t : Ty)

/-- The registry resolution error (`throw new Error('Unsupported raw type:
' + to)`; spec name `UnsupportedType`). -/
inductive RegError where
  | unsupportedType (d : DataType)
  deriving DecidableEq, Repr

/-- `makeType(to)`: a string input is looked up in `Types`, throwing
`UnsupportedType` when absent (`!Types[to]`) and otherwise returning whatever
the entry holds; a non-string input is returned unchanged. -/
def makeType : TypeRef → Except RegError TypesEntry
  | .name d =>
    match TypesMap d with
    | some e => Except.ok e
    | none => Except.error (RegError.unsupportedType d)
  | .descr t => Except.ok (TypesEntry.desc t)

/-- Looking a key up right after inserting it at the front finds the inserted
value. -/
theorem mapGet_insert {K : Type} [DecidableEq K] (l : List (K × Nat))
    (k : K) (v : Nat) : mapGet ((k, v) :: l) k = some v := by
  simp [mapGet]

/-- C8: the registry factories are memoized.  In any registry state and for
any `maxLength` key (including the unbounded `none`), two successive
`makeText` calls with the same key return the identical instance; likewise
two successive `makeArray` calls with the same element instance; and the
non-parameterized primitive kinds are single process-wide instances held in
the constant `Types` table, which `makeType` returns on every resolution of
the kind's name. -/
theorem C8_registry_memoization (r : Registry) (len : Option Nat) (eid : Nat) :
    (makeText (makeText r len).1 len).2 = (makeText r len).2 ∧
    (makeArray (makeArray r eid).1 eid).2 = (makeArray r eid).2 ∧
    TypesMap DataType.int = some (TypesEntry.desc (Ty.num DataType.int)) ∧
    makeType (TypeRef.name DataType.int) =
      Except.ok (TypesEntry.desc (Ty.num DataType.int)) ∧
    TypesMap DataType.bool = some (TypesEntry.desc Ty.boolT) ∧
    TypesMap DataType.timestamp = some (TypesEntry.desc Ty.timestampT) ∧
    TypesMap DataType.null = some (TypesEntry.desc Ty.nullT) ∧
    TypesMap DataType.float = some (TypesEntry.desc (Ty.num DataType.float)) ∧
    TypesMap DataType.long = some (TypesEntry.desc (Ty.num DataType.long)) := by
  refine ⟨?_, ?_, rfl, rfl, rfl, rfl, rfl, rfl, rfl⟩
  · rcases h : mapGet r.texts len with _ | id
    · simp [makeText, h, mapGet_insert]
    · simp [makeText, h]
  · rcases h : mapGet r.arrays eid with _ | id
    · simp [makeArray, h, mapGet_insert]
    · simp [makeArray, h]

/-- C9 (code bug): `makeType` returns an already-resolved descriptor
unchanged and resolves each recognized non-parameterized primitive kind name
to its singleton; unrecognized names — among them the parameterized `array`
kind and the unregistered `decimal` kind — fail with `UnsupportedType`.  But
the parameterized `text` name does *not* fail: `Types[text]` holds the
bounded-text factory function, which is truthy, so `makeType('text')` returns
that function — neither an error nor a `TypeDescriptor`, contradicting both
the claim and `makeType`'s own declared `_IType` return type. -/
theorem C9_makeType_resolution (t : Ty) :
    makeType (TypeRef.descr t) = Except.ok (TypesEntry.desc t) ∧
    makeType (TypeRef.name DataType.int) =
      Except.ok (TypesEntry.desc (Ty.num DataType.int)) ∧
    makeType (TypeRef.name DataType.array) =
      Except.error (RegError.unsupportedType DataType.array) ∧
    makeType (TypeRef.name DataType.decimal) =
      Except.error (RegError.unsupportedType DataType.decimal) ∧
    makeType (TypeRef.name DataType.text) = Except.ok TypesEntry.factory ∧
    (∀ e, makeType (TypeRef.name DataType.text) ≠ Except.error e) ∧
    (∀ d, makeType (TypeRef.name DataType.text) ≠ Except.ok (TypesEntry.desc d)) := by
  refine ⟨rfl, rfl, rfl, rfl, rfl, ?_, ?_⟩
  · intro e
    simp [makeType, TypesMap]
  · intro d
    simp [makeType, TypesMap]
